import Mathlib

/-!
Verification of the invoice/sale core of `sistema_factura` (Flask + SQLAlchemy).

The embedding models the database state as explicit lists of rows and each
route handler of `src/app.py` as a pure state transformer.  Monetary and
quantity values are modelled as `ℚ`: the source performs its accumulation in
Python `Decimal` (exact decimal arithmetic) and converts to `float` only at
the persistence boundary; the `float` conversion is modelled as
value-preserving, an idealization that is favourable to the code.  The single
`db.session.commit()` at the end of each handler is modelled by a `commitOk`
flag: when the commit fails the session is rolled back, so the resulting
state is the pre-transaction state.
-/

namespace SistemaFactura

/-- A row of `customers` (models/__init__.py, class Customer). Only the fields
relevant to the claims are carried. -/
structure Customer where
  id : Nat
  name : String
deriving Repr, DecidableEq

/-- A row of `products` (models/__init__.py, class Product). `price`, `cost`
and `tax` are stored as floats in the DB; values are modelled in `ℚ`. -/
structure Product where
  id : Nat
  code : String
  name : String
  price : ℚ
  cost : ℚ
  tax : ℚ
deriving Repr, DecidableEq

/-- A row of `stock` (models/__init__.py, class Stock): quantity on hand for a
product. -/
structure Stock where
  productId : Nat
  qty : ℚ
deriving Repr, DecidableEq

/-- A row of `invoices` (models/__init__.py, class Invoice).  `customerId` is
an `Int` because `ventas_nueva` stores whatever integer `int(form['cliente'])`
produced, without further validation. -/
structure Invoice where
  id : Nat
  code : String
  customerId : Int
  userId : Nat
  subtotal : ℚ
  taxTotal : ℚ
  total : ℚ
deriving Repr, DecidableEq

/-- A row of `invoice_items` (models/__init__.py, class InvoiceItem). -/
structure InvoiceItem where
  invoiceId : Nat
  productId : Nat
  quantity : ℚ
  price : ℚ
  subtotal : ℚ
deriving Repr, DecidableEq

/-- The database state: one list per table, plus the autoincrement counters
that assign primary keys on insert. -/
structure DB where
  customers : List Customer
  products : List Product
  stocks : List Stock
  invoices : List Invoice
  invoiceItems : List InvoiceItem
  nextInvoiceId : Nat
  nextProductId : Nat
deriving Repr, DecidableEq

/-! Section: Document code generation

`ventas_nueva` line 178: `nueva_factura.code = f"F-{nueva_factura.id:05d}"`,
`productos_agregar` line 362: `nuevo.code = f"P-{nuevo.id:05d}"`.
The decimal printer is written with explicit fuel so that it is structurally
recursive and reduces inside the kernel. -/

/-- Little-endian decimal digits of `n`, computed with `fuel ≥ n`. -/
def natDigitsRevAux : Nat → Nat → List Nat
  | _, 0 => []
  | 0, _ + 1 => []
  | fuel + 1, n + 1 => ((n + 1) % 10) :: natDigitsRevAux fuel ((n + 1) / 10)

/-- Little-endian decimal digits of `n` (empty for 0). -/
def natDigitsRev (n : Nat) : List Nat :=
  natDigitsRevAux n n

/-- The ASCII character of a decimal digit. -/
def digitChar (d : Nat) : Char :=
  Char.ofNat (48 + d)

/-- Decimal representation of a natural number, as Python's `str`/`format`
produce it. -/
def natStr (n : Nat) : String :=
  if n = 0 then "0" else ⟨((natDigitsRev n).reverse.map digitChar)⟩

/-- Python's `format(n, "05d")`: zero-pad the decimal representation to at
least five characters. -/
def pad5 (n : Nat) : String :=
  ⟨List.replicate (5 - (natStr n).length) '0'⟩ ++ natStr n

/-- Invoice document code, app.py line 178. -/
def invoiceCode (n : Nat) : String :=
  "F-" ++ pad5 n

/-- Product document code, app.py line 362. -/
def productCode (n : Nat) : String :=
  "P-" ++ pad5 n

/-! Section: Form input for `ventas_nueva` -/

/-- The `cliente` form field after `int(request.form.get('cliente', 0))`
(app.py lines 116-120): a missing field defaults to the integer `0` (which
`int` passes through), a non-numeric string raises `ValueError`, and a
numeric string parses to its value. -/
inductive ClienteInput where
  | missing
  | malformed
  | value (n : Int)
deriving Repr, DecidableEq

/-- The `cantidad_<id>` form field after
`Decimal(str(request.form.get(..., 0)))` inside try/except (app.py lines
132-135): a parse failure is caught and replaced by `Decimal('0')`. -/
inductive QtyInput where
  | malformed
  | value (q : ℚ)
deriving Repr, DecidableEq

/-- A POST request to `/ventas/nueva`: the acting user, the `cliente` field,
and the `(product_id, cantidad_<product_id>)` pairs recovered from the
`producto_<product_id>` form keys, in form order. -/
structure SaleRequest where
  userId : Nat
  cliente : ClienteInput
  pairs : List (Nat × QtyInput)
deriving Repr, DecidableEq

/-- Lines 116-120 of app.py: `int(request.form.get('cliente', 0))` with
`ValueError` caught.  `none` means the handler flashes and aborts. -/
def parseCliente : ClienteInput → Option Int
  | .malformed => none
  | .missing => some 0
  | .value n => some n

/-- Lines 132-135 of app.py: the parsed quantity, with a parse failure
silently replaced by zero. -/
def parseCantidad : QtyInput → ℚ
  | .malformed => 0
  | .value q => q

/-- `Product.query.get(product_id)` (app.py line 140): first row with the
given primary key. -/
def findProduct (products : List Product) (pid : Nat) : Option Product :=
  products.find? (fun p => p.id == pid)

/-- `Stock.query.filter_by(product_id=...).first()` (app.py line 192). -/
def findStock (stocks : List Stock) (pid : Nat) : Option Stock :=
  stocks.find? (fun s => s.productId == pid)

/-- One entry of the in-memory `items` list built by the loop at app.py
lines 127-157. -/
structure PendingItem where
  product : Product
  quantity : ℚ
  price : ℚ
  subtotal : ℚ
deriving Repr, DecidableEq

/-- The body of the loop at app.py lines 127-157, acting on the accumulator
`(items, subtotal, iva_total)`: a quantity `≤ 0` (including parse failures)
skips the pair, an unknown product skips the pair, and otherwise the line is
priced with the product's current price and tax and appended. -/
def saleStep (products : List Product) (acc : List PendingItem × ℚ × ℚ)
    (pr : Nat × QtyInput) : List PendingItem × ℚ × ℚ :=
  let cantidad := parseCantidad pr.2
  if cantidad ≤ 0 then acc
  else
    match findProduct products pr.1 with
    | none => acc
    | some producto =>
      let subItem := producto.price * cantidad
      let ivaItem := producto.tax / 100 * subItem
      (acc.1 ++ [⟨producto, cantidad, producto.price, subItem⟩],
       acc.2.1 + subItem, acc.2.2 + ivaItem)

/-- The whole parsing/pricing loop of app.py lines 122-157: returns the
surviving line items and the accumulated `subtotal` and `iva_total`. -/
def buildItems (products : List Product) (pairs : List (Nat × QtyInput)) :
    List PendingItem × ℚ × ℚ :=
  pairs.foldl (saleStep products) ([], 0, 0)

/-- Overwrite the quantity of the first stock row of the given product
(the ORM mutates the row object returned by `.first()`). -/
def setFirstStockQty : List Stock → Nat → ℚ → List Stock
  | [], _, _ => []
  | s :: rest, pid, q =>
    if s.productId == pid then { s with qty := q } :: rest
    else s :: setFirstStockQty rest pid q

/-- Stock deduction for one sold line, app.py lines 192-200: if no stock row
exists the deduction is silently skipped; otherwise the new quantity is the
old one minus the sold quantity, clamped at zero. -/
def applyDeduction (stocks : List Stock) (pid : Nat) (qty : ℚ) : List Stock :=
  match findStock stocks pid with
  | none => stocks
  | some s =>
    if s.qty - qty < 0 then setFirstStockQty stocks pid 0
    else setFirstStockQty stocks pid (s.qty - qty)

/-- Outcome of a POST to `/ventas/nueva`. -/
inductive SaleOutcome where
  | invalidCustomer
  | emptyInvoice
  | created (code : String)
  | persistenceFailure
deriving Repr, DecidableEq

/-- POST handler `ventas_nueva` (app.py lines 107-206).  All session writes
(invoice insert + flush, item inserts, stock updates) happen inside one
transaction committed at line 203; `commitOk = false` models a storage
failure at that commit, which rolls the whole session back. -/
def ventasNueva (db : DB) (req : SaleRequest) (commitOk : Bool) :
    SaleOutcome × DB :=
  match parseCliente req.cliente with
  | none => (.invalidCustomer, db)
  | some clienteId =>
    if (buildItems db.products req.pairs).1.isEmpty then (.emptyInvoice, db)
    else if commitOk then
      (.created (invoiceCode db.nextInvoiceId),
       { db with
           invoices := db.invoices ++
             [⟨db.nextInvoiceId, invoiceCode db.nextInvoiceId, clienteId,
               req.userId,
               (buildItems db.products req.pairs).2.1,
               (buildItems db.products req.pairs).2.2,
               (buildItems db.products req.pairs).2.1 +
                 (buildItems db.products req.pairs).2.2⟩],
           invoiceItems := db.invoiceItems ++
             (buildItems db.products req.pairs).1.map (fun it =>
               ⟨db.nextInvoiceId, it.product.id, it.quantity, it.price,
                it.subtotal⟩),
           stocks := (buildItems db.products req.pairs).1.foldl
             (fun st it => applyDeduction st it.product.id it.quantity)
             db.stocks,
           nextInvoiceId := db.nextInvoiceId + 1 })
    else (.persistenceFailure, db)

/-! Section: Product CRUD -/

/-- Parsed form of a POST to `/productos/agregar` (a malformed numeric field
raises an uncaught `ValueError`, aborting the request before any session
write, so only well-parsed requests are modelled). -/
structure ProductForm where
  nombre : String
  precio : ℚ
  costo : ℚ
  iva : ℚ
  cantidad : ℚ
deriving Repr, DecidableEq

/-- Handler `productos_agregar` (app.py lines 335-371): inserts the product,
assigns its code from the flushed id, and inserts an initial stock row with
the submitted quantity, unvalidated. -/
def productosAgregar (db : DB) (f : ProductForm) : DB :=
  { db with
      products := db.products ++
        [⟨db.nextProductId, productCode db.nextProductId, f.nombre,
          f.precio, f.costo, f.iva⟩],
      stocks := db.stocks ++ [⟨db.nextProductId, f.cantidad⟩],
      nextProductId := db.nextProductId + 1 }

/-- The `cantidad` field of `/productos/editar` (app.py lines 383, 396-400):
`request.form.get('cantidad')` is `None` when absent, the empty string is
falsy and also skipped, and a `float` parse failure is caught and ignored. -/
inductive CantidadInput where
  | absent
  | malformed
  | value (q : ℚ)
deriving Repr, DecidableEq

/-- Parsed form of a POST to `/productos/editar/<id>`: `none` fields were not
submitted and keep the current value. -/
structure EditForm where
  nombre : Option String
  precio : Option ℚ
  costo : Option ℚ
  iva : Option ℚ
  cantidad : CantidadInput
deriving Repr, DecidableEq

/-- Overwrite the first product row with the given id. -/
def setFirstProduct : List Product → Nat → Product → List Product
  | [], _, _ => []
  | p :: rest, pid, p' =>
    if p.id == pid then p' :: rest else p :: setFirstProduct rest pid p'

/-- Handler `productos_editar` (app.py lines 374-404): updates name, price,
cost and tax of the product, creates a stock row with qty 0 if none exists,
and overwrites the stock quantity with the submitted value, unvalidated.
An unknown id is a 404 with no state change. -/
def productosEditar (db : DB) (pid : Nat) (f : EditForm) : DB :=
  match findProduct db.products pid with
  | none => db
  | some producto =>
    let producto' : Product :=
      { producto with
          name := f.nombre.getD producto.name,
          price := f.precio.getD producto.price,
          cost := f.costo.getD producto.cost,
          tax := f.iva.getD producto.tax }
    let stocks1 :=
      if (findStock db.stocks pid).isSome then db.stocks
      else db.stocks ++ [⟨pid, 0⟩]
    let stocks2 :=
      match f.cantidad with
      | .value q => setFirstStockQty stocks1 pid q
      | _ => stocks1
    { db with products := setFirstProduct db.products pid producto',
              stocks := stocks2 }

/-! Section: Deletion handlers -/

/-- Outcome of a deletion handler. -/
inductive DeleteOutcome where
  | notFound
  | referentialConflict
  | deleted
  | failed
deriving Repr, DecidableEq

/-- Remove the first element satisfying `p`. -/
def removeFirst {α : Type} (p : α → Bool) : List α → List α
  | [] => []
  | x :: rest => if p x then rest else x :: removeFirst p rest

/-- Handler `clientes_eliminar` (app.py lines 307-321): a customer with at
least one invoice is not deleted; otherwise the customer row is removed. -/
def clientesEliminar (db : DB) (cid : Nat) : DeleteOutcome × DB :=
  match db.customers.find? (fun c => c.id == cid) with
  | none => (.notFound, db)
  | some _ =>
    if db.invoices.any (fun i => i.customerId == (cid : Int)) then
      (.referentialConflict, db)
    else
      (.deleted,
       { db with customers := removeFirst (fun c => c.id == cid) db.customers })

/-- Handler `productos_eliminar` (app.py lines 407-427): a product referenced
by any invoice item is not deleted; otherwise its stock rows (the explicit
`first()` delete plus the `delete-orphan` cascade on `Product.stock_items`)
and the product row are removed. -/
def productosEliminar (db : DB) (pid : Nat) : DeleteOutcome × DB :=
  match findProduct db.products pid with
  | none => (.notFound, db)
  | some _ =>
    if db.invoiceItems.any (fun it => it.productId == pid) then
      (.referentialConflict, db)
    else
      (.deleted,
       { db with
           stocks := db.stocks.filter (fun s => !(s.productId == pid)),
           products := removeFirst (fun p => p.id == pid) db.products })

/-- Handler `ventas_eliminar` (app.py lines 238-261): deletes the invoice;
the `delete-orphan` cascade on `Invoice.items` removes its line items.  The
try/except around the commit rolls back on failure (`commitOk = false`). -/
def ventasEliminar (db : DB) (iid : Nat) (commitOk : Bool) :
    DeleteOutcome × DB :=
  match db.invoices.find? (fun i => i.id == iid) with
  | none => (.notFound, db)
  | some _ =>
    if commitOk then
      (.deleted,
       { db with
           invoices := removeFirst (fun i => i.id == iid) db.invoices,
           invoiceItems :=
             db.invoiceItems.filter (fun it => !(it.invoiceId == iid)) })
    else (.failed, db)

/-! Section: Derived definitions used by the verification -/

/-- The fate of one submitted pair in the loop of app.py lines 127-157:
`none` when the pair is silently dropped (unparseable, zero or negative
quantity, or unknown product), `some` with the priced line otherwise. -/
def survivor (products : List Product) (pr : Nat × QtyInput) :
    Option PendingItem :=
  let cantidad := parseCantidad pr.2
  if cantidad ≤ 0 then none
  else
    match findProduct products pr.1 with
    | none => none
    | some producto =>
      some ⟨producto, cantidad, producto.price, producto.price * cantidad⟩

/-- A sale request that passes both validation gates against the given
catalog: the customer field parses as an integer and at least one line item
survives filtering. -/
def goodReq (products : List Product) (r : SaleRequest) : Bool :=
  (parseCliente r.cliente).isSome && !(buildItems products r.pairs).1.isEmpty

/-- Sequential invoice creation: each request is handled by `ventasNueva`
with a successful commit, in order. -/
def ventasLoop (db : DB) (reqs : List SaleRequest) : DB :=
  reqs.foldl (fun d r => (ventasNueva d r true).2) db

/-- Modelled from the spec: rounding a monetary amount "to 2 decimal
places" (round-half-up as representative tie rule; the counterexample below
avoids ties so the tie rule is irrelevant).  The source never applies any
such rounding; this definition exists only to compare the spec's words
against the code. -/
def roundTo2 (q : ℚ) : ℚ :=
  ((⌊q * 100 + 1 / 2⌋ : ℤ) : ℚ) / 100

/-- Value of a little-endian list of decimal digits. -/
def decVal : List Nat → Nat
  | [] => 0
  | d :: ds => d + 10 * decVal ds

/-- ASCII digit character to digit value. -/
def charToDigit (c : Char) : Nat :=
  c.toNat - 48

/-- Recover the number from a zero-padded decimal character string. -/
def parseDigits (cs : List Char) : Nat :=
  decVal ((cs.map charToDigit).reverse)

/-! Section: Concrete states used by the witnesses and counterexamples -/

/-- A catalog with one customer and two products, priced as in the spec's
totals test: (price 10.00, tax 13%) and (price 5.50, tax 0%). -/
def exDB : DB :=
  { customers := [⟨1, "Ana"⟩],
    products := [⟨1, "P-00001", "a", 10, 0, 13⟩, ⟨2, "P-00002", "b", 11/2, 0, 0⟩],
    stocks := [⟨1, 5⟩, ⟨2, 7⟩],
    invoices := [], invoiceItems := [],
    nextInvoiceId := 1, nextProductId := 3 }

/-- The spec's totals test request: qty 2 of product 1, qty 3 of product 2. -/
def exReq : SaleRequest :=
  { userId := 1, cliente := .value 1, pairs := [(1, .value 2), (2, .value 3)] }

/-- A catalog with one product and no customers. -/
def dbNoCustomers : DB :=
  { customers := [], products := [⟨1, "P-00001", "w", 10, 0, 0⟩],
    stocks := [⟨1, 100⟩], invoices := [], invoiceItems := [],
    nextInvoiceId := 1, nextProductId := 2 }

/-- A sale request whose customer reference (7) resolves to no stored
customer. -/
def reqGhostCustomer : SaleRequest :=
  { userId := 1, cliente := .value 7, pairs := [(1, .value 2)] }

/-- A sale request whose customer field fails integer parsing. -/
def reqMalformedCliente : SaleRequest :=
  { userId := 1, cliente := .malformed, pairs := [(1, .value 2)] }

/-- A request whose submitted pairs are all dropped by filtering: an
unparseable quantity, a zero quantity, a negative quantity, and an unknown
product. -/
def reqAllFiltered : SaleRequest :=
  { userId := 1, cliente := .value 1,
    pairs := [(1, .malformed), (1, .value 0), (1, .value (-1)), (99, .value 5)] }

/-- A catalog producing a tax total with four decimal places:
0.13 * 3.33 = 0.4329. -/
def dbFourPlaces : DB :=
  { customers := [⟨1, "Ana"⟩],
    products := [⟨1, "P-00001", "g", 333/100, 0, 13⟩],
    stocks := [⟨1, 10⟩], invoices := [], invoiceItems := [],
    nextInvoiceId := 1, nextProductId := 2 }

/-- One unit of the four-decimal-places product. -/
def reqFourPlaces : SaleRequest :=
  { userId := 1, cliente := .value 1, pairs := [(1, .value 1)] }

/-- The empty database. -/
def dbEmpty : DB :=
  { customers := [], products := [], stocks := [], invoices := [],
    invoiceItems := [], nextInvoiceId := 1, nextProductId := 1 }

/-- A state containing one committed invoice (id 1, referencing customer 1
and product 1) with its line item and an already-deducted stock row, as
left behind by a sale. -/
def dbWithInvoice : DB :=
  { customers := [⟨1, "Ana"⟩],
    products := [⟨1, "P-00001", "a", 10, 0, 13⟩],
    stocks := [⟨1, 3⟩],
    invoices := [⟨1, "F-00001", 1, 1, 20, 13/5, 113/5⟩],
    invoiceItems := [⟨1, 1, 2, 10, 20⟩],
    nextInvoiceId := 2, nextProductId := 2 }

/-! Section: Characterization of the pricing loop -/

lemma saleStep_foldl (products : List Product)
    (pairs : List (Nat × QtyInput)) :
    ∀ acc : List PendingItem × ℚ × ℚ,
    pairs.foldl (saleStep products) acc
      = (acc.1 ++ pairs.filterMap (survivor products),
         acc.2.1 +
           ((pairs.filterMap (survivor products)).map
             PendingItem.subtotal).sum,
         acc.2.2 +
           ((pairs.filterMap (survivor products)).map
             (fun it => it.product.tax / 100 * it.subtotal)).sum) := by
  induction pairs with
  | nil => intro acc; simp
  | cons pr rest ih =>
    intro acc
    rw [List.foldl_cons]
    by_cases hq : parseCantidad pr.2 ≤ 0
    · rw [ih]
      simp [saleStep, survivor, hq]
    · cases hfp : findProduct products pr.1 with
      | none =>
        rw [ih]
        simp [saleStep, survivor, hq, hfp]
      | some producto =>
        rw [ih]
        simp [saleStep, survivor, hq, hfp, add_assoc]

/-- The loop of app.py lines 122-157 keeps exactly the surviving pairs and
accumulates the line subtotals and line taxes over them. -/
lemma buildItems_eq (products : List Product)
    (pairs : List (Nat × QtyInput)) :
    buildItems products pairs
      = (pairs.filterMap (survivor products),
         ((pairs.filterMap (survivor products)).map
           PendingItem.subtotal).sum,
         ((pairs.filterMap (survivor products)).map
           (fun it => it.product.tax / 100 * it.subtotal)).sum) := by
  unfold buildItems
  rw [saleStep_foldl]
  simp

lemma survivor_fields {products : List Product} {pr : Nat × QtyInput}
    {it : PendingItem} (h : survivor products pr = some it) :
    it.price = it.product.price ∧
    it.subtotal = it.product.price * it.quantity ∧
    0 < it.quantity ∧
    findProduct products pr.1 = some it.product ∧
    it.quantity = parseCantidad pr.2 := by
  unfold survivor at h
  by_cases hq : parseCantidad pr.2 ≤ 0
  · simp [hq] at h
  · cases hfp : findProduct products pr.1 with
    | none => simp [hq, hfp] at h
    | some producto =>
      simp only [hq, hfp, if_neg, if_false] at h
      simp only [Option.some.injEq] at h
      subst h
      refine ⟨rfl, rfl, lt_of_not_le hq, ?_, rfl⟩
      simp [hfp]

/-! Section: Equation lemmas for `ventasNueva` -/

lemma ventasNueva_invalid {db : DB} {req : SaleRequest} {ok : Bool}
    (h : parseCliente req.cliente = none) :
    ventasNueva db req ok = (.invalidCustomer, db) := by
  unfold ventasNueva
  rw [h]

lemma ventasNueva_empty {db : DB} {req : SaleRequest} {ok : Bool} {cid : Int}
    (hc : parseCliente req.cliente = some cid)
    (he : (buildItems db.products req.pairs).1 = []) :
    ventasNueva db req ok = (.emptyInvoice, db) := by
  unfold ventasNueva
  rw [hc]
  simp [he]

lemma ventasNueva_commit {db : DB} {req : SaleRequest} {cid : Int}
    (hc : parseCliente req.cliente = some cid)
    (hne : (buildItems db.products req.pairs).1 ≠ []) :
    ventasNueva db req true
      = (.created (invoiceCode db.nextInvoiceId),
         { db with
             invoices := db.invoices ++
               [⟨db.nextInvoiceId, invoiceCode db.nextInvoiceId, cid,
                 req.userId,
                 (buildItems db.products req.pairs).2.1,
                 (buildItems db.products req.pairs).2.2,
                 (buildItems db.products req.pairs).2.1 +
                   (buildItems db.products req.pairs).2.2⟩],
             invoiceItems := db.invoiceItems ++
               (buildItems db.products req.pairs).1.map (fun it =>
                 ⟨db.nextInvoiceId, it.product.id, it.quantity, it.price,
                  it.subtotal⟩),
             stocks := (buildItems db.products req.pairs).1.foldl
               (fun st it => applyDeduction st it.product.id it.quantity)
               db.stocks,
             nextInvoiceId := db.nextInvoiceId + 1 }) := by
  unfold ventasNueva
  rw [hc]
  simp [List.isEmpty_iff, hne]

lemma ventasNueva_nocommit {db : DB} {req : SaleRequest} {cid : Int}
    (hc : parseCliente req.cliente = some cid)
    (hne : (buildItems db.products req.pairs).1 ≠ []) :
    ventasNueva db req false = (.persistenceFailure, db) := by
  unfold ventasNueva
  rw [hc]
  simp [List.isEmpty_iff, hne]

/-! Section: Injectivity of the document codes -/

lemma decVal_append (L1 L2 : List Nat) :
    decVal (L1 ++ L2) = decVal L1 + 10 ^ L1.length * decVal L2 := by
  induction L1 with
  | nil => simp [decVal]
  | cons d ds ih =>
    simp only [List.cons_append, decVal, List.append_eq]
    rw [ih]
    simp only [List.length_cons, pow_succ]
    ring

lemma decVal_replicate_zero (k : Nat) :
    decVal (List.replicate k 0) = 0 := by
  induction k with
  | zero => rfl
  | succ n ih => simp [List.replicate_succ, decVal, ih]

lemma decVal_natDigitsRevAux (fuel : Nat) :
    ∀ n : Nat, n ≤ fuel → decVal (natDigitsRevAux fuel n) = n := by
  induction fuel with
  | zero =>
    intro n h
    interval_cases n
    rfl
  | succ f ih =>
    intro n h
    cases n with
    | zero => rfl
    | succ m =>
      have hle : (m + 1) / 10 ≤ f := by omega
      simp only [natDigitsRevAux, decVal, ih _ hle]
      omega

lemma decVal_natDigitsRev (n : Nat) : decVal (natDigitsRev n) = n :=
  decVal_natDigitsRevAux n n le_rfl

lemma natDigitsRevAux_lt (fuel : Nat) :
    ∀ n : Nat, ∀ d ∈ natDigitsRevAux fuel n, d < 10 := by
  induction fuel with
  | zero =>
    intro n d hd
    cases n <;> simp [natDigitsRevAux] at hd
  | succ f ih =>
    intro n d hd
    cases n with
    | zero => simp [natDigitsRevAux] at hd
    | succ m =>
      simp only [natDigitsRevAux, List.mem_cons] at hd
      rcases hd with rfl | hd
      · omega
      · exact ih _ d hd

lemma charToDigit_digitChar {d : Nat} (hd : d < 10) :
    charToDigit (digitChar d) = d := by
  interval_cases d <;> rfl

lemma parseDigits_pad5 (n : Nat) : parseDigits (pad5 n).data = n := by
  by_cases h0 : n = 0
  · subst h0
    rfl
  · have hdata : (pad5 n).data
        = List.replicate (5 - (natStr n).length) '0'
          ++ ((natDigitsRev n).reverse.map digitChar) := by
      simp [pad5, natStr, h0, String.data_append]
    rw [parseDigits, hdata]
    rw [List.map_append, List.map_replicate]
    have hz : charToDigit '0' = 0 := rfl
    rw [hz]
    rw [List.map_map]
    have hmm : (natDigitsRev n).reverse.map (charToDigit ∘ digitChar)
        = (natDigitsRev n).reverse := by
      have : ∀ d ∈ (natDigitsRev n).reverse,
          (charToDigit ∘ digitChar) d = id d := by
        intro d hd
        simp only [List.mem_reverse] at hd
        exact charToDigit_digitChar (natDigitsRevAux_lt n n d hd)
      rw [List.map_congr_left this, List.map_id]
    rw [hmm, List.reverse_append, List.reverse_replicate, List.reverse_reverse]
    rw [decVal_append, decVal_replicate_zero, Nat.mul_zero, Nat.add_zero]
    exact decVal_natDigitsRev n

lemma pad5_injective : Function.Injective pad5 := by
  intro a b h
  have h2 := congrArg (fun s => parseDigits s.data) h
  simpa only [parseDigits_pad5] using h2

lemma invoiceCode_injective : Function.Injective invoiceCode := by
  intro a b h
  have hd : ("F-" ++ pad5 a).data = ("F-" ++ pad5 b).data :=
    congrArg String.data h
  rw [String.data_append, String.data_append] at hd
  have h2 : (pad5 a).data = (pad5 b).data := List.append_cancel_left hd
  have h3 := congrArg parseDigits h2
  rwa [parseDigits_pad5, parseDigits_pad5] at h3

/-! Section: Claim C2 -/

/-- C2: for every invoice-creation request, if the storage commit of the
single atomic write fails, the session is rolled back and the resulting
state — every Invoice, InvoiceItem and Stock row — equals its
pre-transaction value; in particular no stock deduction survives. -/
theorem creation_rollback_atomic (db : DB) (req : SaleRequest) :
    (ventasNueva db req false).2 = db := by
  cases hc : parseCliente req.cliente with
  | none => rw [ventasNueva_invalid hc]
  | some cid =>
    by_cases he : (buildItems db.products req.pairs).1 = []
    · rw [ventasNueva_empty hc he]
    · rw [ventasNueva_nocommit hc he]

/-! Section: Claim C7 -/

/-- C7: editing a product (price, tax rate, name, cost, stock quantity)
leaves every persisted invoice row and invoice-item row unchanged: the unit
prices, line subtotals, subtotal, tax total and total of existing invoices
are snapshots, decoupled from later catalog edits. -/
theorem invoice_snapshot_isolation (db : DB) (pid : Nat) (f : EditForm) :
    (productosEditar db pid f).invoices = db.invoices ∧
    (productosEditar db pid f).invoiceItems = db.invoiceItems := by
  unfold productosEditar
  cases findProduct db.products pid with
  | none => exact ⟨rfl, rfl⟩
  | some producto => exact ⟨rfl, rfl⟩

/-! Section: Claim C5 (corrected) -/

/-- C5 counterexample: the handler only catches the integer-parse failure of
the customer field and never checks that the id belongs to a stored
Customer.  Against a database with no customers at all, a request naming
customer 7 is committed and the persisted invoice references the
nonexistent customer 7. -/
theorem nonexistent_customer_accepted_cex :
    dbNoCustomers.customers = [] ∧
    (ventasNueva dbNoCustomers reqGhostCustomer true).1
      = SaleOutcome.created "F-00001" ∧
    (ventasNueva dbNoCustomers reqGhostCustomer true).2.customers = [] ∧
    ∃ inv ∈ (ventasNueva dbNoCustomers reqGhostCustomer true).2.invoices,
      inv.customerId = 7 := by
  have hne : (buildItems dbNoCustomers.products reqGhostCustomer.pairs).1
      ≠ [] := by decide
  have h := @ventasNueva_commit dbNoCustomers reqGhostCustomer 7 rfl hne
  rw [h]
  exact ⟨rfl, rfl, rfl,
    ⟨_, List.mem_append_right _ (List.mem_singleton_self _), rfl⟩⟩

/-- C5 amended: a customer reference that fails to parse as an integer
aborts the operation with InvalidCustomer and leaves the state unchanged.
(Existence of the referenced customer is not checked: a well-formed integer
reference that resolves to no stored Customer is accepted, and a missing
reference defaults to 0 and is likewise accepted.) -/
theorem malformed_customer_aborts (db : DB) (req : SaleRequest) (ok : Bool)
    (h : req.cliente = ClienteInput.malformed) :
    ventasNueva db req ok = (SaleOutcome.invalidCustomer, db) := by
  apply ventasNueva_invalid
  rw [h]
  rfl

/-- Witness for the amended C5 theorem at a concrete request. -/
theorem malformed_customer_aborts_witness :
    reqMalformedCliente.cliente = ClienteInput.malformed ∧
    ventasNueva dbNoCustomers reqMalformedCliente true
      = (SaleOutcome.invalidCustomer, dbNoCustomers) :=
  ⟨rfl, malformed_customer_aborts dbNoCustomers reqMalformedCliente true rfl⟩

/-! Section: Claim C4 -/

/-- C4: each submitted pair whose quantity fails to parse (treated as
zero), parses to a value ≤ 0, or whose product reference resolves to no
stored Product, is silently omitted — the surviving lines are exactly the
filterMap of `survivor`, and `survivor` drops precisely those pairs; if no
line survives, the handler aborts with EmptyInvoice and the state is
unchanged; if some line survives, the invoice is created, not an error. -/
theorem line_filtering_silent (db : DB) (req : SaleRequest) (ok : Bool)
    (cid : Int) (hc : parseCliente req.cliente = some cid) :
    (buildItems db.products req.pairs).1
      = req.pairs.filterMap (survivor db.products) ∧
    (∀ pr : Nat × QtyInput,
      survivor db.products pr = none ↔
        parseCantidad pr.2 ≤ 0 ∨ findProduct db.products pr.1 = none) ∧
    ((buildItems db.products req.pairs).1 = [] →
      ventasNueva db req ok = (SaleOutcome.emptyInvoice, db)) ∧
    ((buildItems db.products req.pairs).1 ≠ [] →
      (ventasNueva db req true).1
        = SaleOutcome.created (invoiceCode db.nextInvoiceId)) := by
  refine ⟨by rw [buildItems_eq], ?_,
    fun he => ventasNueva_empty hc he,
    fun hne => by rw [ventasNueva_commit hc hne]⟩
  intro pr
  unfold survivor
  by_cases hq : parseCantidad pr.2 ≤ 0
  · simp [hq]
  · cases hfp : findProduct db.products pr.1 <;> simp [hq, hfp]

/-- Witness for C4: a request submitting only an unparseable quantity, a
zero quantity, a negative quantity, and an unknown product yields no
surviving line and aborts with EmptyInvoice, state unchanged. -/
theorem line_filtering_silent_witness :
    (buildItems dbNoCustomers.products reqAllFiltered.pairs).1 = [] ∧
    ventasNueva dbNoCustomers reqAllFiltered true
      = (SaleOutcome.emptyInvoice, dbNoCustomers) := by
  have h := line_filtering_silent dbNoCustomers reqAllFiltered true 1 rfl
  have he : (buildItems dbNoCustomers.products reqAllFiltered.pairs).1
      = [] := by decide
  exact ⟨he, h.2.2.1 he⟩

/-! Section: Claim C1 -/

/-- C1: whenever invoice creation commits, the persisted invoice's subtotal
is the sum of the line subtotals, its tax total is the sum of
lineSubtotal * taxRatePercent / 100 over the lines, its total is
subtotal + taxTotal, and each surviving line snapshots the product's
current price with lineSubtotal = unitPrice * quantity.  The witness below
instantiates this at the spec's example lines and checks subtotal 36.50,
tax 2.60, total 39.10. -/
theorem invoice_totals_correct (db : DB) (req : SaleRequest) (c : String)
    (h : (ventasNueva db req true).1 = SaleOutcome.created c) :
    ∃ inv : Invoice,
      (ventasNueva db req true).2.invoices = db.invoices ++ [inv] ∧
      inv.subtotal = ((buildItems db.products req.pairs).1.map
        PendingItem.subtotal).sum ∧
      inv.taxTotal = ((buildItems db.products req.pairs).1.map
        (fun it => it.subtotal * it.product.tax / 100)).sum ∧
      inv.total = inv.subtotal + inv.taxTotal ∧
      (ventasNueva db req true).2.invoiceItems = db.invoiceItems ++
        (buildItems db.products req.pairs).1.map (fun it =>
          (⟨inv.id, it.product.id, it.quantity, it.price, it.subtotal⟩ : InvoiceItem)) ∧
      ∀ it ∈ (buildItems db.products req.pairs).1,
        it.price = it.product.price ∧
        it.subtotal = it.product.price * it.quantity := by
  cases hc : parseCliente req.cliente with
  | none =>
    rw [ventasNueva_invalid hc] at h
    simp at h
  | some cid =>
    by_cases he : (buildItems db.products req.pairs).1 = []
    · rw [ventasNueva_empty hc he] at h
      simp at h
    · rw [ventasNueva_commit hc he]
      refine ⟨_, rfl, by rw [buildItems_eq], ?_, rfl, rfl, ?_⟩
      · rw [buildItems_eq]
        dsimp only
        congr 1
        apply List.map_congr_left
        intro it _
        ring
      · intro it hit
        replace hit : it ∈ req.pairs.filterMap (survivor db.products) := by
          rw [buildItems_eq] at hit
          exact hit
        rcases List.mem_filterMap.mp hit with ⟨pr, hpr, hs⟩
        obtain ⟨h1, h2, _, _, _⟩ := survivor_fields hs
        exact ⟨h1, h2⟩

/-- Witness for C1 at the spec's concrete lines
(price 10.00 tax 13% qty 2; price 5.50 tax 0% qty 3):
subtotal 36.50 = 73/2, tax 2.60 = 13/5, total 39.10 = 391/10. -/
theorem invoice_totals_correct_witness :
    (ventasNueva exDB exReq true).1 = SaleOutcome.created "F-00001" ∧
    ∃ inv : Invoice,
      (ventasNueva exDB exReq true).2.invoices = exDB.invoices ++ [inv] ∧
      inv.subtotal = 73/2 ∧ inv.taxTotal = 13/5 ∧ inv.total = 391/10 := by
  have hne : (buildItems exDB.products exReq.pairs).1 ≠ [] := by decide
  have hout : (ventasNueva exDB exReq true).1 = SaleOutcome.created "F-00001" := by
    rw [@ventasNueva_commit exDB exReq 1 rfl hne]
    rfl
  obtain ⟨inv, h1, h2, h3, h4, _, _⟩ :=
    invoice_totals_correct exDB exReq "F-00001" hout
  have q2 : inv.subtotal = 73/2 := by
    rw [h2]
    simp [buildItems_eq, survivor, parseCantidad, findProduct, List.find?, exDB, exReq]
    norm_num
  have q3 : inv.taxTotal = 13/5 := by
    rw [h3]
    simp [buildItems_eq, survivor, parseCantidad, findProduct, List.find?, exDB, exReq]
    norm_num
  have q4 : inv.total = 391/10 := by
    rw [h4, q2, q3]
    norm_num
  exact ⟨hout, inv, h1, q2, q3, q4⟩

/-! Section: Claim C6 (corrected) -/

/-- C6 amended: accumulation happens in exact decimal (rational)
arithmetic, and the persisted header values are exactly the accumulated
values; no rounding to two decimal places is applied at the persistence
boundary (the only conversion is Decimal-to-float, modelled here as
value-preserving). -/
theorem persisted_exact_unrounded (db : DB) (req : SaleRequest) (c : String)
    (h : (ventasNueva db req true).1 = SaleOutcome.created c) :
    ∃ inv : Invoice,
      (ventasNueva db req true).2.invoices = db.invoices ++ [inv] ∧
      inv.subtotal = (buildItems db.products req.pairs).2.1 ∧
      inv.taxTotal = (buildItems db.products req.pairs).2.2 ∧
      inv.total = (buildItems db.products req.pairs).2.1
        + (buildItems db.products req.pairs).2.2 := by
  cases hc : parseCliente req.cliente with
  | none =>
    rw [ventasNueva_invalid hc] at h
    simp at h
  | some cid =>
    by_cases he : (buildItems db.products req.pairs).1 = []
    · rw [ventasNueva_empty hc he] at h
      simp at h
    · rw [ventasNueva_commit hc he]
      exact ⟨_, rfl, rfl, rfl, rfl⟩

/-- Witness for the amended C6 theorem at a concrete committed sale. -/
theorem persisted_exact_unrounded_witness :
    (ventasNueva dbFourPlaces reqFourPlaces true).1
      = SaleOutcome.created "F-00001" ∧
    ∃ inv : Invoice,
      (ventasNueva dbFourPlaces reqFourPlaces true).2.invoices
        = dbFourPlaces.invoices ++ [inv] ∧
      inv.taxTotal = (buildItems dbFourPlaces.products reqFourPlaces.pairs).2.2 := by
  have hne : (buildItems dbFourPlaces.products reqFourPlaces.pairs).1 ≠ [] := by decide
  have hout : (ventasNueva dbFourPlaces reqFourPlaces true).1
      = SaleOutcome.created "F-00001" := by
    rw [@ventasNueva_commit dbFourPlaces reqFourPlaces 1 rfl hne]
    rfl
  obtain ⟨inv, h1, _, h3, _⟩ :=
    persisted_exact_unrounded dbFourPlaces reqFourPlaces "F-00001" hout
  exact ⟨hout, inv, h1, h3⟩

/-- C6 counterexample: for the single line (price 3.33, tax 13%, qty 1)
the persisted tax total is exactly 0.4329, which has four decimal places;
it differs from roundTo2 of the exact value (0.43) and from every possible
two-decimal rounding (0.43 and 0.44), so the persisted value is not "the
exact result rounded to 2 decimal places". -/
theorem persisted_value_unrounded_cex :
    ∃ inv : Invoice,
      (ventasNueva dbFourPlaces reqFourPlaces true).2.invoices = [inv] ∧
      inv.taxTotal = 4329/10000 ∧
      roundTo2 (4329/10000) = 43/100 ∧
      inv.taxTotal ≠ 43/100 ∧
      inv.taxTotal ≠ 44/100 := by
  have hne : (buildItems dbFourPlaces.products reqFourPlaces.pairs).1 ≠ [] := by decide
  have h := @ventasNueva_commit dbFourPlaces reqFourPlaces 1 rfl hne
  rw [h]
  have hval : (buildItems dbFourPlaces.products reqFourPlaces.pairs).2.2 = 4329/10000 := by
    simp [buildItems, saleStep, parseCantidad, findProduct, List.find?,
      dbFourPlaces, reqFourPlaces]
    norm_num
  refine ⟨_, List.nil_append _, hval, ?_, ?_, ?_⟩
  · rw [roundTo2]
    rw [show ((4329 : ℚ)/10000 * 100 + 1/2) = 4379/100 by norm_num]
    rw [show ⌊(4379 : ℚ)/100⌋ = 43 by
      rw [Int.floor_eq_iff]
      norm_num]
    norm_num
  · rw [hval]; norm_num
  · rw [hval]; norm_num

/-! Section: Claim C3 (corrected) -/

lemma setFirstStockQty_mem {stocks : List Stock} {pid : Nat} {v : ℚ} :
    ∀ s ∈ setFirstStockQty stocks pid v, s ∈ stocks ∨ s.qty = v := by
  induction stocks with
  | nil => intro s hs; simp [setFirstStockQty] at hs
  | cons t rest ih =>
    intro s hs
    by_cases hp : (t.productId == pid) = true
    · rw [setFirstStockQty, if_pos hp] at hs
      rcases List.mem_cons.mp hs with rfl | h1
      · right; rfl
      · left; exact List.mem_cons_of_mem t h1
    · rw [setFirstStockQty, if_neg hp] at hs
      rcases List.mem_cons.mp hs with rfl | h1
      · left; exact List.mem_cons_self s rest
      · rcases ih s h1 with h2 | h2
        · left; exact List.mem_cons_of_mem t h2
        · right; exact h2

lemma applyDeduction_nonneg {stocks : List Stock} {pid : Nat} {q : ℚ}
    (h : ∀ s ∈ stocks, 0 ≤ s.qty) :
    ∀ s ∈ applyDeduction stocks pid q, 0 ≤ s.qty := by
  intro s hs
  unfold applyDeduction at hs
  cases hf : findStock stocks pid with
  | none => rw [hf] at hs; exact h s hs
  | some t =>
    rw [hf] at hs
    dsimp only at hs
    by_cases hlt : t.qty - q < 0
    · rw [if_pos hlt] at hs
      rcases setFirstStockQty_mem s hs with h1 | h1
      · exact h s h1
      · rw [h1]
    · rw [if_neg hlt] at hs
      rcases setFirstStockQty_mem s hs with h1 | h1
      · exact h s h1
      · rw [h1]; exact not_lt.mp hlt

lemma foldl_deduction_nonneg (items : List PendingItem) :
    ∀ stocks : List Stock, (∀ s ∈ stocks, 0 ≤ s.qty) →
    ∀ s ∈ items.foldl
      (fun st it => applyDeduction st it.product.id it.quantity) stocks,
      0 ≤ s.qty := by
  induction items with
  | nil => intro stocks h s hs; exact h s hs
  | cons it rest ih =>
    intro stocks h s hs
    rw [List.foldl_cons] at hs
    exact ih _ (applyDeduction_nonneg h) s hs

lemma applyDeduction_eq_max {stocks : List Stock} {pid : Nat} {q : ℚ}
    {s : Stock} (h : findStock stocks pid = some s) :
    applyDeduction stocks pid q = setFirstStockQty stocks pid (max 0 (s.qty - q)) := by
  unfold applyDeduction
  rw [h]
  dsimp only
  by_cases hlt : s.qty - q < 0
  · rw [if_pos hlt, max_eq_left (le_of_lt hlt)]
  · rw [if_neg hlt, max_eq_right (not_lt.mp hlt)]

/-- C3 amended: the sale-path deduction writes back
newQty = max(0, currentQty - requestedQty), so invoice creation keeps every
stock quantity nonnegative whenever it was nonnegative before.  (Product
creation and product edit, by contrast, store the submitted quantity with
no nonnegativity check — see the counterexample — so "every reachable
state has Stock quantity ≥ 0" does not hold for the system as a whole.) -/
theorem sale_stock_clamped (db : DB) (req : SaleRequest) (ok : Bool)
    (stocks : List Stock) (pid : Nat) (q : ℚ) (s : Stock)
    (hnn : ∀ t ∈ db.stocks, 0 ≤ t.qty)
    (hf : findStock stocks pid = some s) :
    (∀ t ∈ (ventasNueva db req ok).2.stocks, 0 ≤ t.qty) ∧
    applyDeduction stocks pid q
      = setFirstStockQty stocks pid (max 0 (s.qty - q)) := by
  refine ⟨?_, applyDeduction_eq_max hf⟩
  intro t ht
  cases hc : parseCliente req.cliente with
  | none =>
    rw [ventasNueva_invalid hc] at ht
    exact hnn t ht
  | some cid =>
    by_cases he : (buildItems db.products req.pairs).1 = []
    · rw [ventasNueva_empty hc he] at ht
      exact hnn t ht
    · cases ok with
      | false =>
        rw [ventasNueva_nocommit hc he] at ht
        exact hnn t ht
      | true =>
        rw [ventasNueva_commit hc he] at ht
        exact foldl_deduction_nonneg _ _ hnn t ht

/-- Witness for the amended C3 theorem, including the spec's clamp test:
stock qty 5, requested deduction 8, resulting qty max(0, 5-8) = 0. -/
theorem sale_stock_clamped_witness :
    (∀ t ∈ (ventasNueva exDB exReq true).2.stocks, 0 ≤ t.qty) ∧
    applyDeduction [⟨1, 5⟩] 1 8 = setFirstStockQty [⟨1, 5⟩] 1 (max 0 (5 - 8)) :=
  sale_stock_clamped exDB exReq true [⟨1, 5⟩] 1 8 ⟨1, 5⟩ (by decide) rfl

/-- C3 counterexample: `productos_agregar` stores the submitted initial
quantity unvalidated, so creating a product with quantity -5 persists a
Stock row with a negative quantity. -/
theorem negative_stock_reachable_cex :
    ∃ s ∈ (productosAgregar dbEmpty ⟨"x", 1, 0, 0, -5⟩).stocks, s.qty < 0 := by
  refine ⟨⟨1, -5⟩, ?_, by norm_num⟩
  simp [productosAgregar, dbEmpty]

/-! Section: Claims C9 and C10 -/

/-- C9: deleting a customer referenced by at least one invoice, and
deleting a product referenced by at least one invoice item, are both
refused with a referential conflict, and the whole state (the
customer/product and all invoices) is left unchanged. -/
theorem referenced_delete_refused (db : DB) (cid pid : Nat)
    (hc : (db.customers.find? (fun c => c.id == cid)).isSome = true)
    (hir : db.invoices.any (fun i => i.customerId == (cid : Int)) = true)
    (hp : (findProduct db.products pid).isSome = true)
    (hpr : db.invoiceItems.any (fun it => it.productId == pid) = true) :
    clientesEliminar db cid = (DeleteOutcome.referentialConflict, db) ∧
    productosEliminar db pid = (DeleteOutcome.referentialConflict, db) := by
  constructor
  · unfold clientesEliminar
    cases hfc : db.customers.find? (fun c => c.id == cid) with
    | none => rw [hfc] at hc; simp at hc
    | some cu =>
      dsimp only
      rw [if_pos hir]
  · unfold productosEliminar
    cases hfp : findProduct db.products pid with
    | none => rw [hfp] at hp; simp at hp
    | some p =>
      dsimp only
      rw [if_pos hpr]

/-- Witness for C9 on a state with one invoice referencing customer 1 and
one invoice item referencing product 1. -/
theorem referenced_delete_refused_witness :
    clientesEliminar dbWithInvoice 1
      = (DeleteOutcome.referentialConflict, dbWithInvoice) ∧
    productosEliminar dbWithInvoice 1
      = (DeleteOutcome.referentialConflict, dbWithInvoice) :=
  referenced_delete_refused dbWithInvoice 1 1
    (by decide) (by decide) (by decide) (by decide)

lemma removeFirst_invoice_id {l : List Invoice} {iid : Nat}
    (hnd : (l.map Invoice.id).Nodup) :
    ∀ i ∈ removeFirst (fun i => i.id == iid) l, i.id ≠ iid := by
  induction l with
  | nil => intro i hi; simp [removeFirst] at hi
  | cons x rest ih =>
    intro i hi
    rw [List.map_cons, List.nodup_cons] at hnd
    rw [removeFirst] at hi
    by_cases hx : x.id = iid
    · rw [if_pos (by simp [hx])] at hi
      intro hiq
      exact hnd.1 (by rw [hx, ← hiq]; exact List.mem_map_of_mem Invoice.id hi)
    · rw [if_neg (by simp [hx])] at hi
      rcases List.mem_cons.mp hi with rfl | h1
      · exact hx
      · exact ih hnd.2 i h1

/-- C10: deleting an existing invoice removes the invoice header and (via
the delete-orphan cascade) all of its InvoiceItem rows, and leaves every
Stock row untouched — the stock deduction made at creation time is not
reversed. -/
theorem invoice_delete_keeps_stock (db : DB) (iid : Nat)
    (hex : (db.invoices.find? (fun i => i.id == iid)).isSome = true)
    (hnd : (db.invoices.map Invoice.id).Nodup) :
    (ventasEliminar db iid true).1 = DeleteOutcome.deleted ∧
    (ventasEliminar db iid true).2.invoices
      = removeFirst (fun i => i.id == iid) db.invoices ∧
    (∀ i ∈ (ventasEliminar db iid true).2.invoices, i.id ≠ iid) ∧
    (ventasEliminar db iid true).2.invoiceItems
      = db.invoiceItems.filter (fun it => !(it.invoiceId == iid)) ∧
    (∀ it ∈ (ventasEliminar db iid true).2.invoiceItems,
      it.invoiceId ≠ iid) ∧
    (ventasEliminar db iid true).2.stocks = db.stocks := by
  have hstep : ventasEliminar db iid true
      = (DeleteOutcome.deleted,
         { db with
             invoices := removeFirst (fun i => i.id == iid) db.invoices,
             invoiceItems :=
               db.invoiceItems.filter (fun it => !(it.invoiceId == iid)) }) := by
    unfold ventasEliminar
    cases hf : db.invoices.find? (fun i => i.id == iid) with
    | none => rw [hf] at hex; simp at hex
    | some inv => rfl
  rw [hstep]
  refine ⟨rfl, rfl, removeFirst_invoice_id hnd, rfl, ?_, rfl⟩
  intro it hit
  rw [List.mem_filter] at hit
  simpa using hit.2

/-- Witness for C10 on a state holding one committed invoice, its line
item, and the stock row left at 3 by the earlier deduction. -/
theorem invoice_delete_keeps_stock_witness :
    (ventasEliminar dbWithInvoice 1 true).1 = DeleteOutcome.deleted ∧
    (ventasEliminar dbWithInvoice 1 true).2.invoices
      = removeFirst (fun i => i.id == 1) dbWithInvoice.invoices ∧
    (∀ i ∈ (ventasEliminar dbWithInvoice 1 true).2.invoices, i.id ≠ 1) ∧
    (ventasEliminar dbWithInvoice 1 true).2.invoiceItems
      = dbWithInvoice.invoiceItems.filter (fun it => !(it.invoiceId == 1)) ∧
    (∀ it ∈ (ventasEliminar dbWithInvoice 1 true).2.invoiceItems,
      it.invoiceId ≠ 1) ∧
    (ventasEliminar dbWithInvoice 1 true).2.stocks = dbWithInvoice.stocks :=
  invoice_delete_keeps_stock dbWithInvoice 1 (by decide) (by decide)

/-! Section: Claim C8 -/

lemma goodReq_spec {products : List Product} {r : SaleRequest}
    (h : goodReq products r = true) :
    (∃ cid, parseCliente r.cliente = some cid) ∧
    (buildItems products r.pairs).1 ≠ [] := by
  simp only [goodReq, Bool.and_eq_true, Bool.not_eq_true'] at h
  constructor
  · cases hpc : parseCliente r.cliente with
    | none => rw [hpc] at h; simp at h
    | some cid => exact ⟨cid, rfl⟩
  · intro he
    rw [he] at h
    simp at h

lemma ventasLoop_invoices (reqs : List SaleRequest) :
    ∀ db : DB, (∀ r ∈ reqs, goodReq db.products r = true) →
    (ventasLoop db reqs).invoices.map (fun i => (i.id, i.code))
      = db.invoices.map (fun i => (i.id, i.code))
        ++ (List.range reqs.length).map
            (fun k => (db.nextInvoiceId + k,
              invoiceCode (db.nextInvoiceId + k))) := by
  induction reqs with
  | nil => intro db _; simp [ventasLoop]
  | cons r rest ih =>
    intro db hg
    obtain ⟨⟨cid, hc⟩, hne⟩ := goodReq_spec (hg r (List.mem_cons_self r rest))
    have hstep := ventasNueva_commit hc hne
    have hloop : ventasLoop db (r :: rest)
        = ventasLoop (ventasNueva db r true).2 rest := by
      rw [ventasLoop, List.foldl_cons]
      rfl
    have hg2 : ∀ r2 ∈ rest,
        goodReq ((ventasNueva db r true).2).products r2 = true := by
      intro r2 hr2
      have hp : ((ventasNueva db r true).2).products = db.products := by
        rw [hstep]
      rw [hp]
      exact hg r2 (List.mem_cons_of_mem r hr2)
    rw [hloop, ih _ hg2, hstep]
    dsimp only
    have h1 : (fun k : Nat => (db.nextInvoiceId + 1 + k,
          invoiceCode (db.nextInvoiceId + 1 + k)))
        = (fun k : Nat => (db.nextInvoiceId + (k + 1),
          invoiceCode (db.nextInvoiceId + (k + 1)))) := by
      funext k
      have h2 : db.nextInvoiceId + 1 + k = db.nextInvoiceId + (k + 1) := by
        omega
      rw [h2]
    rw [h1]
    simp [List.range_succ_eq_map, Nat.succ_eq_add_one, Function.comp]

/-- C8: every invoice created by the handler gets code
"F-" ++ zero-padded id (products analogously "P-" ++ zero-padded id), and
creating N invoices sequentially under no-failure conditions yields the
consecutive ids nextId, nextId+1, ..., nextId+N-1 with their codes — N
pairwise-distinct codes over strictly increasing ids with no gaps. -/
theorem sequential_codes_unique_increasing (db : DB)
    (reqs : List SaleRequest)
    (hg : ∀ r ∈ reqs, goodReq db.products r = true) :
    (ventasLoop db reqs).invoices.map (fun i => (i.id, i.code))
      = db.invoices.map (fun i => (i.id, i.code))
        ++ (List.range reqs.length).map
            (fun k => (db.nextInvoiceId + k,
              invoiceCode (db.nextInvoiceId + k))) ∧
    ((List.range reqs.length).map
      (fun k => invoiceCode (db.nextInvoiceId + k))).Nodup ∧
    List.Pairwise (· < ·)
      ((List.range reqs.length).map (fun k => db.nextInvoiceId + k)) ∧
    ∀ f : ProductForm,
      (productosAgregar db f).products.map (fun p => (p.id, p.code))
        = db.products.map (fun p => (p.id, p.code))
          ++ [(db.nextProductId, productCode db.nextProductId)] := by
  refine ⟨ventasLoop_invoices reqs db hg, ?_, ?_, ?_⟩
  · apply List.Nodup.map
    · exact fun a b hab => Nat.add_left_cancel (invoiceCode_injective hab)
    · exact List.nodup_range _
  · apply List.Pairwise.map
    · exact fun a b hab => Nat.add_lt_add_left hab _
    · exact List.pairwise_lt_range _
  · intro f
    simp [productosAgregar]

/-- Witness for C8: three sequential sales on the example catalog produce
codes F-00001, F-00002, F-00003. -/
theorem sequential_codes_unique_increasing_witness :
    (∀ r ∈ [exReq, exReq, exReq], goodReq exDB.products r = true) ∧
    (ventasLoop exDB [exReq, exReq, exReq]).invoices.map
        (fun i => (i.id, i.code))
      = [(1, "F-00001"), (2, "F-00002"), (3, "F-00003")] := by
  have hg : ∀ r ∈ [exReq, exReq, exReq], goodReq exDB.products r = true := by
    decide
  have h := sequential_codes_unique_increasing exDB [exReq, exReq, exReq] hg
  refine ⟨hg, ?_⟩
  rw [h.1]
  rfl

end SistemaFactura
